import Mathlib

set_option maxRecDepth 100000

/-!
Shallow embedding of the pharma-reg-monitor source-adapter and orchestration
pipeline (the four source modules, the consolidator and the manager), together
with theorems settling the frozen claims about it.

Library calls of the Python code (HTTP transport, BeautifulSoup extraction,
regex matching) are modelled at their result boundary: a fetched page enters
the embedding as the structured data the library extraction yields, and a
transport attempt enters as an oracle from attempt number to an optional
response.  Everything the repository computes itself (date parsing and
normalization, window cutoffs, SHA-256 cookie values, URL construction,
record assembly, dispatch and halt logic) is embedded as executable Lean
functions mirroring the Python statements.
-/

namespace PharmaReg

/-! ## Calendar dates

Python `date` objects are modelled by their proleptic-Gregorian day number
with epoch 1970-01-01 = 0 (chronological order = numeric order, matching
Python date comparison).  `rataDie` and `civilFromDays` are the standard
civil-calendar conversions, computed over `Nat` with a constant year offset
so no negative intermediate appears. -/

def isLeap (y : Nat) : Bool :=
  (y % 4 == 0 && y % 100 != 0) || y % 400 == 0

def daysInMonth (y m : Nat) : Nat :=
  if m == 2 then (if isLeap y then 29 else 28)
  else if m == 4 || m == 6 || m == 9 || m == 11 then 30
  else 31

def validYMD (y m d : Nat) : Bool :=
  1 ≤ m && m ≤ 12 && 1 ≤ d && d ≤ daysInMonth y m

/-- Days since 1970-01-01 of the civil date (y, m, d). -/
def rataDie (y m d : Nat) : Int :=
  let yy := if m ≤ 2 then y + 399 else y + 400
  let era := yy / 400
  let yoe := yy % 400
  let mp := if m > 2 then m - 3 else m + 9
  let doy := (153 * mp + 2) / 5 + (d - 1)
  let doe := yoe * 365 + yoe / 4 + doy - yoe / 100
  ((era * 146097 + doe : Nat) : Int) - 865565

/-- Civil date (y, m, d) of a day number (inverse of `rataDie` on the
supported range). -/
def civilFromDays (z : Int) : Nat × Nat × Nat :=
  let z' := (z + 15329168).toNat
  let era := z' / 146097
  let doe := z' % 146097
  let yoe := (doe - doe / 1460 + doe / 36524 - doe / 146096) / 365
  let doy := doe - (365 * yoe + yoe / 4 - yoe / 100)
  let mp := (5 * doy + 2) / 153
  let d := doy - (153 * mp + 2) / 5 + 1
  let m := if mp < 10 then mp + 3 else mp - 9
  (yoe + era * 400 + (if m ≤ 2 then 1 else 0) - 40000, m, d)

/-- A naive Python `datetime`: a calendar day plus a time of day in seconds.
Only whole-day arithmetic and the `.date()` projection are ever applied. -/
structure PyDateTime where
  day : Int
  secs : Nat
deriving Repr, DecidableEq

/-- `t - timedelta(days = k)`: whole-day subtraction keeps the time of day. -/
def PyDateTime.subDays (t : PyDateTime) (k : Nat) : PyDateTime :=
  ⟨t.day - k, t.secs⟩

/-- `.date()`: discard the time of day. -/
def PyDateTime.date (t : PyDateTime) : Int := t.day

/-! ## Numeric text fields, as `strptime` matches them -/

def isDigitChar (c : Char) : Bool := '0' ≤ c && c ≤ '9'

/-- Split a character list on a one-character separator; like Python
`s.split(sep)`, the empty input yields one empty group. -/
def splitOnChar (sep : Char) : List Char → List (List Char)
  | [] => [[]]
  | c :: rest =>
    match splitOnChar sep rest with
    | [] => [[]]
    | g :: gs => if c == sep then [] :: g :: gs else (c :: g) :: gs

/-- Python `s.split(sep)` for a one-character separator. -/
def pySplit (sep : Char) (s : String) : List String :=
  (splitOnChar sep s.toList).map String.mk

def digitsToNat (cs : List Char) : Nat :=
  cs.foldl (fun acc c => acc * 10 + (c.toNat - '0'.toNat)) 0

/-- A numeric field of `minLen`-to-`maxLen` digits whose value lies in
`[lo, hi]`, the shape of a CPython `_strptime` field pattern. -/
def parseNumField (s : String) (minLen maxLen lo hi : Nat) : Option Nat :=
  let cs := s.toList
  if minLen ≤ cs.length && cs.length ≤ maxLen && cs.all isDigitChar then
    let n := digitsToNat cs
    if lo ≤ n && n ≤ hi then some n else none
  else none

/-- `datetime.strptime(s, "%Y-%m-%d")` (a `ValueError` is `none`):
a 4-digit year, 1-2 digit month and day, and a valid calendar date. -/
def parseISODate (s : String) : Option (Nat × Nat × Nat) :=
  match pySplit '-' s with
  | [ys, ms, ds] =>
    match parseNumField ys 4 4 0 9999, parseNumField ms 1 2 1 12,
        parseNumField ds 1 2 1 31 with
    | some y, some m, some d =>
      if validYMD y m d then some (y, m, d) else none
    | _, _, _ => none
  | _ => none

/-- `datetime.strptime(s, "%d/%m/%Y")` (a `ValueError` is `none`). -/
def parseDMYDate (s : String) : Option (Nat × Nat × Nat) :=
  match pySplit '/' s with
  | [ds, ms, ys] =>
    match parseNumField ys 4 4 0 9999, parseNumField ms 1 2 1 12,
        parseNumField ds 1 2 1 31 with
    | some y, some m, some d =>
      if validYMD y m d then some (y, m, d) else none
    | _, _, _ => none
  | _ => none

/-- `datetime.strptime(s, "%m/%d/%Y")` (a `ValueError` is `none`). -/
def parseMDYDate (s : String) : Option (Nat × Nat × Nat) :=
  match pySplit '/' s with
  | [ms, ds, ys] =>
    match parseNumField ys 4 4 0 9999, parseNumField ms 1 2 1 12,
        parseNumField ds 1 2 1 31 with
    | some y, some m, some d =>
      if validYMD y m d then some (y, m, d) else none
    | _, _, _ => none
  | _ => none

def padNum (width n : Nat) : String :=
  let s := toString n
  String.mk (List.replicate (width - s.length) '0') ++ s

/-- `strftime("%Y-%m-%d")`. -/
def formatISO (ymd : Nat × Nat × Nat) : String :=
  padNum 4 ymd.1 ++ "-" ++ padNum 2 ymd.2.1 ++ "-" ++ padNum 2 ymd.2.2

/-- `strftime("%d/%m/%Y")`. -/
def formatDMY (ymd : Nat × Nat × Nat) : String :=
  padNum 2 ymd.2.2 ++ "/" ++ padNum 2 ymd.2.1 ++ "/" ++ padNum 4 ymd.1

/-! ## Python string and int primitives used by the code -/

def isPySpace (c : Char) : Bool :=
  c == ' ' || c == '\t' || c == '\n' || c == '\r' ||
    c == '\x0b' || c == '\x0c'

/-- Python `str.strip()`. -/
def pyStrip (s : String) : String :=
  String.mk (((s.toList.dropWhile isPySpace).reverse.dropWhile isPySpace).reverse)

/-- Digit run with optional single underscores between digits, as accepted
by Python `int`. -/
def pyDigitRun : List Char → Bool
  | [] => false
  | [c] => isDigitChar c
  | c :: '_' :: rest => isDigitChar c && pyDigitRun rest
  | c :: rest => isDigitChar c && pyDigitRun rest

/-- Python `int(s)` (a `ValueError` is `none`). -/
def pyInt (s : String) : Option Int :=
  let cs := (pyStrip s).toList
  let core := match cs with
    | '-' :: rest => some (true, rest)
    | '+' :: rest => some (false, rest)
    | rest => some (false, rest)
  match core with
  | some (neg, rest) =>
    if pyDigitRun rest then
      let n := digitsToNat (rest.filter isDigitChar)
      some (if neg then -(n : Int) else (n : Int))
    else none
  | none => none

/-- Python `s.split(sep)[0]` for a one-character separator: the prefix up
to the first occurrence. -/
def firstSplitTok (sep : Char) (s : String) : String :=
  String.mk (s.toList.takeWhile (fun c => c != sep))

/-! ## Byte strings, SHA-256 and URL encoding

`hashlib.sha256(text.encode("utf-8"))` is embedded as a full executable
SHA-256 over byte lists (bytes and 32-bit words are `Nat` with explicit
masking), validated below against published test vectors. -/

/-- UTF-8 bytes of one character. -/
def utf8Bytes (c : Char) : List Nat :=
  let n := c.toNat
  if n < 128 then [n]
  else if n < 2048 then [192 + n / 64, 128 + n % 64]
  else if n < 65536 then
    [224 + n / 4096, 128 + (n / 64) % 64, 128 + n % 64]
  else
    [240 + n / 262144, 128 + (n / 4096) % 64, 128 + (n / 64) % 64,
      128 + n % 64]

/-- Python `text.encode("utf-8")` as a byte list. -/
def utf8Encode (s : String) : List Nat :=
  (s.toList.map utf8Bytes).flatten

def w32 (n : Nat) : Nat := n % 4294967296

def rotr32 (x n : Nat) : Nat := w32 ((x >>> n) + w32 (x <<< (32 - n)))

def shaCh (x y z : Nat) : Nat := (x &&& y) ^^^ ((x ^^^ 4294967295) &&& z)

def shaMaj (x y z : Nat) : Nat := (x &&& y) ^^^ (x &&& z) ^^^ (y &&& z)

def bsig0 (x : Nat) : Nat := rotr32 x 2 ^^^ rotr32 x 13 ^^^ rotr32 x 22

def bsig1 (x : Nat) : Nat := rotr32 x 6 ^^^ rotr32 x 11 ^^^ rotr32 x 25

def ssig0 (x : Nat) : Nat := rotr32 x 7 ^^^ rotr32 x 18 ^^^ (x >>> 3)

def ssig1 (x : Nat) : Nat := rotr32 x 17 ^^^ rotr32 x 19 ^^^ (x >>> 10)

def shaK : List Nat :=
  [
   1116352408, 1899447441, 3049323471, 3921009573, 961987163,
   1508970993, 2453635748, 2870763221, 3624381080, 310598401,
   607225278, 1426881987, 1925078388, 2162078206, 2614888103,
   3248222580, 3835390401, 4022224774, 264347078, 604807628,
   770255983, 1249150122, 1555081692, 1996064986, 2554220882,
   2821834349, 2952996808, 3210313671, 3336571891, 3584528711,
   113926993, 338241895, 666307205, 773529912, 1294757372,
   1396182291, 1695183700, 1986661051, 2177026350, 2456956037,
   2730485921, 2820302411, 3259730800, 3345764771, 3516065817,
   3600352804, 4094571909, 275423344, 430227734, 506948616,
   659060556, 883997877, 958139571, 1322822218, 1537002063,
   1747873779, 1955562222, 2024104815, 2227730452, 2361852424,
   2428436474, 2756734187, 3204031479, 3329325298]

def shaH0 : List Nat :=
  [1779033703, 3144134277, 1013904242, 2773480762,
   1359893119, 2600822924, 528734635, 1541459225]

/-- Big-endian bytes of a number, fixed width. -/
def beBytes (k n : Nat) : List Nat :=
  (List.range k).map (fun i => n / 256 ^ (k - 1 - i) % 256)

/-- SHA-256 message padding. -/
def shaPad (msg : List Nat) : List Nat :=
  let l := msg.length
  let k := (120 - (l + 1) % 64) % 64
  msg ++ [128] ++ List.replicate k 0 ++ beBytes 8 (8 * l)

/-- The 16 message words of one 64-byte block. -/
def blockWords (b : List Nat) : List Nat :=
  (List.range 16).map (fun i =>
    b.getD (4 * i) 0 * 16777216 + b.getD (4 * i + 1) 0 * 65536 +
      b.getD (4 * i + 2) 0 * 256 + b.getD (4 * i + 3) 0)

/-- Extend the message schedule from `t` words up to 64 words. -/
def extendSchedule : Nat → List Nat → List Nat
  | 0, w => w
  | n + 1, w =>
    let t := w.length
    let nw := w32 (ssig1 (w.getD (t - 2) 0) + w.getD (t - 7) 0 +
      ssig0 (w.getD (t - 15) 0) + w.getD (t - 16) 0)
    extendSchedule n (w ++ [nw])

/-- One compression round. -/
def shaRound (st : List Nat) (kw : Nat × Nat) : List Nat :=
  match st with
  | [a, b, c, d, e, f, g, h] =>
    let t1 := w32 (h + bsig1 e + shaCh e f g + kw.1 + kw.2)
    let t2 := w32 (bsig0 a + shaMaj a b c)
    [w32 (t1 + t2), a, b, c, w32 (d + t1), e, f, g]
  | st => st

/-- Compress one 64-byte block into the running hash state. -/
def shaCompress (h : List Nat) (block : List Nat) : List Nat :=
  let w := extendSchedule 48 (blockWords block)
  let st := (shaK.zip w).foldl shaRound h
  (h.zip st).map (fun p => w32 (p.1 + p.2))

/-- The padded message cut into 64-byte blocks (the fuel argument bounds
the block count so the recursion is structural). -/
def chunks64 : Nat → List Nat → List (List Nat)
  | 0, _ => []
  | _ + 1, [] => []
  | fuel + 1, c :: rest =>
    (c :: rest).take 64 :: chunks64 fuel ((c :: rest).drop 64)

/-- SHA-256 digest (32 bytes) of a byte list. -/
def sha256 (msg : List Nat) : List Nat :=
  let padded := shaPad msg
  ((chunks64 padded.length padded).foldl shaCompress shaH0).map (beBytes 4)
    |>.flatten

def hexDigitU (n : Nat) : Char :=
  if n < 10 then Char.ofNat (48 + n) else Char.ofNat (55 + n)

/-- Uppercase hex rendering of a byte list, as
`hashlib.sha256(...).hexdigest().upper()` renders a digest. -/
def hexUpper (bytes : List Nat) : String :=
  String.mk ((bytes.map (fun b => [hexDigitU (b / 16), hexDigitU (b % 16)])).flatten)

/-- `_compute_sha256` of fda_source.py and fda_dmf_source.py: the uppercase
hex SHA-256 of the UTF-8 encoding of the text. -/
def compute_sha256 (text : String) : String :=
  hexUpper (sha256 (utf8Encode text))

/-! ## URL construction, as `requests` encodes query parameters -/

/-- Characters `urllib.parse.quote_plus` leaves unescaped. -/
def isUrlSafe (b : Nat) : Bool :=
  (65 ≤ b && b ≤ 90) || (97 ≤ b && b ≤ 122) || (48 ≤ b && b ≤ 57) ||
    b == 95 || b == 46 || b == 45 || b == 126

/-- `urllib.parse.quote_plus`: spaces become plus signs, unsafe bytes are
percent-encoded from the UTF-8 encoding. -/
def quotePlus (s : String) : String :=
  String.mk (((utf8Encode s).map (fun b =>
    if b == 32 then ['+']
    else if isUrlSafe b then [Char.ofNat b]
    else ['%', hexDigitU (b / 16), hexDigitU (b % 16)])).flatten)

/-- A URL with an encoded query string, as `requests` prepares it from a
parameter mapping. -/
def urlWithParams (base : String) (params : List (String × String)) : String :=
  base ++ "?" ++
    String.intercalate "&"
      (params.map (fun p => quotePlus p.1 ++ "=" ++ quotePlus p.2))

end PharmaReg

namespace PharmaReg

/-! ## EDQM source (edqm_source.py)

The BeautifulSoup extraction is modelled at its result boundary: an
`EdqmPage` carries whether the raw body was empty (`not html_content`),
the located results table (the element with class table-scroll) when
present, and whether the known zero-results text occurs in the body.  A
table carries its optional tbody as the list of header-class rows, each
row as its stripped td texts. -/

def EDQM_BASE_URL : String := "https://extranet.edqm.eu/4DLink1/4DCGI/Query_CEP"

def MONOGRAPH_BASE_URL : String :=
  "https://extranet.edqm.eu/4DLink1/4DCGI/Web_View/mono/"

structure EdqmTable where
  tbody : Option (List (List String))
deriving Repr, DecidableEq

structure EdqmPage where
  emptyBody : Bool
  table : Option EdqmTable
  hasNoResultsText : Bool
deriving Repr, DecidableEq

/-- One parsed EDQM record: the eleven column fields, with the optional
monograph URL derived from the monograph number. -/
structure EdqmRecord where
  monograph_number : String
  substance : String
  type_cep : String
  certificate_holder : String
  holder_spor_id : String
  certificate_number : String
  issue_date_cep : String
  status_cep : String
  renewal_due : String
  end_date_cep : String
  closure_date_of_last_procedure : String
  monograph_url : Option String
deriving Repr, DecidableEq

/-- Build one record from an eleven-cell row: zip the cell texts with the
column headers, derive the monograph URL when the monograph number is
non-empty, and normalize the issue date from DD/MM/YYYY to YYYY-MM-DD,
keeping the raw value when that parse fails. -/
def edqmRowRecord (cells : List String) : EdqmRecord :=
  let rawDate := cells.getD 6 ""
  { monograph_number := cells.getD 0 ""
    substance := cells.getD 1 ""
    type_cep := cells.getD 2 ""
    certificate_holder := cells.getD 3 ""
    holder_spor_id := cells.getD 4 ""
    certificate_number := cells.getD 5 ""
    issue_date_cep :=
      match parseDMYDate rawDate with
      | some ymd => formatISO ymd
      | none => rawDate
    status_cep := cells.getD 7 ""
    renewal_due := cells.getD 8 ""
    end_date_cep := cells.getD 9 ""
    closure_date_of_last_procedure := cells.getD 10 ""
    monograph_url :=
      if cells.getD 0 "" != "" then some (MONOGRAPH_BASE_URL ++ cells.getD 0 "")
      else none }

/-- `parse_edqm_table`: `none` is the Failure marker (the Python `None`). -/
def parse_edqm_table (page : EdqmPage) : Option (List EdqmRecord) :=
  if page.emptyBody then none
  else
    match page.table with
    | none => if page.hasNoResultsText then some [] else none
    | some t =>
      match t.tbody with
      | none => some []
      | some rows =>
        some ((rows.filter (fun cells => cells.length == 11)).map edqmRowRecord)

/-- The query parameters of `fetch_edqm_html`, with the date range resolved
from the current time and the lookback window. -/
def edqmParams (now : PyDateTime) (daysAgo : Nat) : List (String × String) :=
  let startStr := formatDMY (civilFromDays (now.subDays daysAgo).day)
  let endStr := formatDMY (civilFromDays now.day)
  [("vSelectName", "5"), ("Case_TSE", "none"), ("vContains", "1"),
   ("vContainsDate", "4"), ("vtsubName", ""), ("vtsubDateBegin", ""),
   ("vtsubDateBtwBegin", startStr), ("vtsubDateBtwEnd", endStr),
   ("SWTP", "1"), ("OK", "Search")]

/-- The prepared-request URL `fetch_edqm_html` sends its GET to (and also
returns as `results_url`). -/
def edqmResultsUrl (now : PyDateTime) (daysAgo : Nat) : String :=
  urlWithParams EDQM_BASE_URL (edqmParams now daysAgo)

/-- `fetch_edqm_html`: a single attempt against the transport oracle; on
success the pair of the body and the literal URL queried; also reports the
attempt count and the total sleep (no retry loop exists here). -/
def fetch_edqm_html (now : PyDateTime) (daysAgo : Nat)
    (transport : Option EdqmPage) : Option (EdqmPage × String) × Nat × Nat :=
  (transport.map (fun p => (p, edqmResultsUrl now daysAgo)), 1, 0)

structure EdqmResultPackage where
  data : List EdqmRecord
  source_url : String
deriving Repr, DecidableEq

/-- `check_for_updates` of edqm_source.py: fetch, then parse; each stage
returning the Failure marker propagates it.  No client-side date-window
filter runs here (the window is in the query parameters). -/
def edqm_check_for_updates (now : PyDateTime) (daysToCheck : Nat)
    (transport : Option EdqmPage) : Option EdqmResultPackage :=
  match (fetch_edqm_html now daysToCheck transport).1 with
  | none => none
  | some (page, resultsUrl) =>
    match parse_edqm_table page with
    | none => none
    | some data => some { data := data, source_url := resultsUrl }

end PharmaReg

namespace PharmaReg

/-! ## CDSCO source (cdsco_source.py) -/

def CDSCO_WC_URL : String := "https://cdsco.gov.in/opencms/en/International-cell1/"

def CDSCO_BASE_URL : String := "https://cdsco.gov.in"

/-- The bounded-retry fetch loop of `fetch_cdsco_html`, over a transport
oracle mapping the attempt index to an optional response.  Returns the
result together with the number of attempts issued and the total seconds
slept between attempts.  `remaining` counts the loop iterations left
(including the current one); a sleep of `backoff * (attempt + 1)` happens
after every failed attempt except the last. -/
def fetchWithRetry {α : Type} (transport : Nat → Option α) (backoff : Nat) :
    (attempt : Nat) → (remaining : Nat) → Option α × Nat × Nat
  | _, 0 => (none, 0, 0)
  | attempt, rem + 1 =>
    match transport attempt with
    | some body => (some body, 1, 0)
    | none =>
      if rem == 0 then (none, 1, 0)
      else
        let r := fetchWithRetry transport backoff (attempt + 1) rem
        (r.1, r.2.1 + 1, backoff * (attempt + 1) + r.2.2)

/-- `fetch_cdsco_html`: `max_retries = 3`, `backoff_factor = 5`. -/
def fetch_cdsco_html {α : Type} (transport : Nat → Option α) :
    Option α × Nat × Nat :=
  fetchWithRetry transport 5 0 3

/-- One CDSCO table row at the extraction boundary: the stripped td texts
and the anchor of cell 5 when present (`some none` is an anchor without an
href attribute, whose access raises a KeyError in the Python). -/
structure CdscoRow where
  cells : List String
  link : Option (Option String)
deriving Repr, DecidableEq

structure CdscoTable where
  tbody : Option (List CdscoRow)
deriving Repr, DecidableEq

structure CdscoPage where
  emptyBody : Bool
  table : Option CdscoTable
deriving Repr, DecidableEq

structure CdscoRecord where
  release_date : String
  s_no : String
  wc_number : String
  company_name : String
  products : String
  download_pdf_link : String
  pdf_size : String
deriving Repr, DecidableEq

/-- The case-insensitive strip of a leading honorific, regex
`^M/s\.?\s*`. -/
def stripHonorific (s : String) : String :=
  match s.toList with
  | c1 :: c2 :: c3 :: rest =>
    if (c1 == 'M' || c1 == 'm') && c2 == '/' && (c3 == 'S' || c3 == 's') then
      let rest2 := match rest with
        | '.' :: r => r
        | r => r
      String.mk (rest2.dropWhile isPySpace)
    else s
  | _ => s

/-- Build one record from a seven-cell row. -/
def cdscoRowRecord (row : CdscoRow) : CdscoRecord :=
  { release_date := firstSplitTok ' ' (row.cells.getD 4 "")
    s_no := row.cells.getD 0 ""
    wc_number := row.cells.getD 1 ""
    company_name := stripHonorific (row.cells.getD 2 "")
    products := row.cells.getD 3 ""
    download_pdf_link :=
      match row.link with
      | some (some href) => CDSCO_BASE_URL ++ href
      | some none => ""
      | none => ""
    pdf_size := row.cells.getD 6 "" }

/-- Whether building the record raises (an anchor without an href makes
the Python subscript raise a KeyError, caught by the enclosing handler). -/
def cdscoRowRaises (row : CdscoRow) : Bool :=
  match row.link with
  | some none => true
  | _ => false

/-- `parse_cdsco_table`: `none` is the Failure marker.  Rows with a cell
count other than seven are skipped; a KeyError while building any kept
record is caught by the enclosing handler and fails the whole parse. -/
def parse_cdsco_table (page : CdscoPage) : Option (List CdscoRecord) :=
  if page.emptyBody then none
  else
    match page.table with
    | none => none
    | some t =>
      match t.tbody with
      | none => some []
      | some rows =>
        let kept := rows.filter (fun r => r.cells.length == 7)
        if kept.any cdscoRowRaises then none
        else some (kept.map cdscoRowRecord)

/-- The window predicate of the CDSCO filter loop: the record date parses
as YYYY-MM-DD and lies on or after `today - daysToCheck` (calendar-date
comparison, inclusive). -/
def cdscoKeeps (now : PyDateTime) (daysToCheck : Nat) (c : CdscoRecord) : Bool :=
  match parseISODate c.release_date with
  | some (y, m, d) => decide (rataDie y m d ≥ (now.subDays daysToCheck).date)
  | none => false

/-- The date-window filter loop of `check_for_updates` in cdsco_source.py:
records with a falsy date are skipped, a ValueError from the date parse is
caught and skips the record, otherwise the record is kept exactly when its
date is on or after the cutoff date. -/
def cdscoDateFilter (certs : List CdscoRecord) (now : PyDateTime)
    (daysToCheck : Nat) : List CdscoRecord :=
  match certs with
  | [] => []
  | c :: rest =>
    let tail := cdscoDateFilter rest now daysToCheck
    if c.release_date == "" then tail
    else
      match parseISODate c.release_date with
      | none => tail
      | some (y, m, d) =>
        if rataDie y m d ≥ (now.subDays daysToCheck).date then c :: tail
        else tail

structure CdscoResultPackage where
  data : List CdscoRecord
  source_url : String
deriving Repr, DecidableEq

/-- `check_for_updates` of cdsco_source.py: fetch with retry, parse,
filter by the lookback window, package with the (parameterless) literal
URL queried. -/
def cdsco_check_for_updates (now : PyDateTime) (daysToCheck : Nat)
    (transport : Nat → Option CdscoPage) : Option CdscoResultPackage :=
  match (fetch_cdsco_html transport).1 with
  | none => none
  | some page =>
    match parse_cdsco_table page with
    | none => none
    | some allConfirmations =>
      some { data := cdscoDateFilter allConfirmations now daysToCheck
             source_url := CDSCO_WC_URL }

end PharmaReg

namespace PharmaReg

/-! ## FDA challenge solver (fda_source.py / fda_dmf_source.py)

The landing-page response is modelled at the regex boundary: its status
code, whether the two challenge markers occur in the body, and the first
capture of each of the two extraction regexes when it matches. -/

structure ChallengePage where
  status : Nat
  hasAbuseJs : Bool
  hasPublicSalt : Bool
  saltCapture : Option String
  candidatesCapture : Option String
deriving Repr, DecidableEq

/-- An HTTP session, observed through its cookie jar:
(name, value, domain) triples. -/
structure Session where
  cookies : List (String × String × String)
deriving Repr, DecidableEq

/-- `_solve_challenge_and_get_session`, shared shape of fda_source.py and
fda_dmf_source.py (`domain` is the netloc of the page URL; the landing GET
itself raising is the `none` input).  `none` is the Failed outcome. -/
def solve_challenge_and_get_session (domain : String)
    (landing : Option ChallengePage) : Option Session :=
  match landing with
  | none => none
  | some p =>
    if p.status == 200 && !p.hasAbuseJs then
      some { cookies := [] }
    else if p.hasAbuseJs || p.hasPublicSalt then
      match p.saltCapture, p.candidatesCapture with
      | some salt, some candStr =>
        match pySplit '/' candStr with
        | c0 :: c1 :: _ =>
          some { cookies :=
            [("authorization_1", compute_sha256 (salt ++ c0), domain),
             ("authorization_2", compute_sha256 (salt ++ c1), domain)] }
        | _ => none
      | _, _ => none
    else none

/-- The challenge-detected condition: the clean-page case did not apply
and one of the two markers is present. -/
def challengeDetected (p : ChallengePage) : Bool :=
  !(p.status == 200 && !p.hasAbuseJs) && (p.hasAbuseJs || p.hasPublicSalt)

/-! ## FDA warning-letter source (fda_source.py)

Each AJAX row is a list of small HTML fragments; the BeautifulSoup
extraction of one row is modelled by its results: the column count, the
time tags of columns 0 and 1, the anchor of column 2, and the stripped
texts. -/

def FDA_AJAX_URL : String := "https://www.fda.gov/datatables/views/ajax"

def FDA_WL_PAGE_URL : String :=
  "https://www.fda.gov/inspections-compliance-enforcement-and-criminal-investigations/compliance-actions-and-activities/warning-letters"

def FDA_BASE_URL : String := "https://www.fda.gov"

structure TimeTag where
  datetimeAttr : Option String
deriving Repr, DecidableEq

structure AnchorTag where
  text : String
  href : Option String
deriving Repr, DecidableEq

structure FdaRow where
  ncols : Nat
  col0Time : Option TimeTag
  col0Text : String
  col1Time : Option TimeTag
  col2Anchor : Option AnchorTag
  col2Raw : String
  col3Text : String
  col4Text : String
deriving Repr, DecidableEq

structure FdaRecord where
  posted_date : Option String
  issue_date : Option String
  company_name : String
  issuing_office : String
  subject : String
  letter_url : Option String
deriving Repr, DecidableEq

/-- The `data` payload of the AJAX response: a JSON list (the fallback), a
dict carrying a `data` key, a dict without one, or any other JSON value. -/
inductive FdaApiResponse where
  | jsonList (rows : List FdaRow)
  | dictWithData (rows : List FdaRow)
  | dictNoData
  | other
deriving Repr, DecidableEq

/-- Parse one row; `none` is the `continue` that skips the row. -/
def fdaParseRow (row : FdaRow) : Option FdaRecord :=
  if row.ncols < 5 then none
  else
    let posted : Option String :=
      match row.col0Time with
      | some t =>
        match t.datetimeAttr with
        | some dt => some (firstSplitTok 'T' dt)
        | none => (parseMDYDate row.col0Text).map formatISO
      | none => (parseMDYDate row.col0Text).map formatISO
    let issue : Option String :=
      match row.col1Time with
      | some t => (t.datetimeAttr).map (firstSplitTok 'T')
      | none => none
    some
      { posted_date := posted
        issue_date := issue
        company_name :=
          match row.col2Anchor with
          | some a => a.text
          | none => row.col2Raw
        issuing_office := row.col3Text
        subject := row.col4Text
        letter_url :=
          match row.col2Anchor with
          | some a =>
            match a.href with
            | some href =>
              some (if href.startsWith "http" then href
                else FDA_BASE_URL ++ href)
            | none => none
          | none => none }

/-- `parse_fda_letters`: the row container is the response when it is a
list, the `data` entry when the dict has one, and the empty list otherwise.
Note the return type: this parser has no Failure outcome. -/
def parse_fda_letters (resp : FdaApiResponse) : List FdaRecord :=
  let rawRows : List FdaRow :=
    match resp with
    | .jsonList rows => rows
    | .dictWithData rows => rows
    | .dictNoData => []
    | .other => []
  rawRows.filterMap fdaParseRow

/-- The window predicate of the FDA filter comprehension, on records whose
present date parses. -/
def fdaKeeps (now : PyDateTime) (daysToCheck : Nat) (l : FdaRecord) : Bool :=
  match l.posted_date with
  | none => false
  | some s =>
    if s == "" then false
    else
      match parseISODate s with
      | some (y, m, d) => decide (rataDie y m d ≥ (now.subDays daysToCheck).date)
      | none => false

/-- The date-filter comprehension of `check_for_updates` in fda_source.py:
a falsy `posted_date` short-circuits to exclusion, but `strptime` on a
present unparsable date raises a ValueError that nothing catches
(`Except.error`). -/
def fdaDateFilter (letters : List FdaRecord) (now : PyDateTime)
    (daysToCheck : Nat) : Except Unit (List FdaRecord) :=
  match letters with
  | [] => .ok []
  | l :: rest =>
    match l.posted_date with
    | none => fdaDateFilter rest now daysToCheck
    | some s =>
      if s == "" then fdaDateFilter rest now daysToCheck
      else
        match parseISODate s with
        | none => .error ()
        | some (y, m, d) =>
          match fdaDateFilter rest now daysToCheck with
          | .error e => .error e
          | .ok tail =>
            if rataDie y m d ≥ (now.subDays daysToCheck).date then
              .ok (l :: tail)
            else .ok tail

/-- The AJAX query parameters of `check_for_updates`, including the
runtime-computed cache-buster timestamp and the optionally extracted
view_dom_id. -/
def fdaAjaxParams (nowMs : Nat) (viewDomId : Option String) :
    List (String × String) :=
  [("field_change_date_2", "2"), ("length", "100"), ("start", "0"),
   ("view_display_id", "warning_letter_solr_block"),
   ("view_name", "warning_letter_solr_index"),
   ("view_path", "/inspections-compliance-enforcement-and-criminal-investigations/compliance-actions-and-activities/warning-letters"),
   ("_drupal_ajax", "1"), ("_", toString nowMs)] ++
    (match viewDomId with
     | some id => [("view_dom_id", id)]
     | none => [])

/-- The literal URL the data request of fda_source.py actually queries. -/
def fdaAjaxQueriedUrl (nowMs : Nat) (viewDomId : Option String) : String :=
  urlWithParams FDA_AJAX_URL (fdaAjaxParams nowMs viewDomId)

/-- The environment of one FDA warning-letter check: the solver landing
response, the view_dom_id extraction result, the wall clock, and the AJAX
transport result (`none` covers a request exception, a non-2xx status and
a JSON decode failure alike). -/
structure FdaEnv where
  landing : Option ChallengePage
  viewDomId : Option String
  nowMs : Nat
  now : PyDateTime
  ajax : Option FdaApiResponse
deriving Repr, DecidableEq

structure FdaResultPackage where
  data : List FdaRecord
  source_url : String
deriving Repr, DecidableEq

def fdaDomain : String := "www.fda.gov"

/-- `check_for_updates` of fda_source.py: solve the challenge, fetch the
AJAX payload, parse, filter.  `.ok none` is the returned Failure marker;
`.error ()` is the uncaught ValueError escaping from the filter.  On
success the package carries the static landing-page constant as its
source_url, not the AJAX URL the data came from. -/
def fda_check_for_updates (daysToCheck : Nat) (env : FdaEnv) :
    Except Unit (Option FdaResultPackage) :=
  match solve_challenge_and_get_session fdaDomain env.landing with
  | none => .ok none
  | some _session =>
    match env.ajax with
    | none => .ok none
    | some resp =>
      let allRecentLetters := parse_fda_letters resp
      match fdaDateFilter allRecentLetters env.now daysToCheck with
      | .error e => .error e
      | .ok filtered =>
        .ok (some { data := filtered, source_url := FDA_WL_PAGE_URL })

end PharmaReg

namespace PharmaReg

/-! ## FDA DMF source (fda_dmf_source.py) -/

def FDA_DMF_URL : String :=
  "https://www.fda.gov/drugs/drug-master-files-dmfs/list-drug-master-files-dmfs"

/-- The DMF page at the extraction boundary: the datetime attribute of the
time tag inside the current-date list item when that chain exists, and the
href of the first anchor whose text contains the excel keyword
case-insensitively when such an anchor with an href exists.  Either chain
breaking anywhere collapses to `none`, exactly the cases the Python guards
send to its else branches. -/
structure DmfPage where
  emptyBody : Bool
  currentDateAttr : Option String
  excelHref : Option String
deriving Repr, DecidableEq

structure DmfDetails where
  update_date : String
  download_url : String
deriving Repr, DecidableEq

/-- `parse_dmf_page_details`: both the content-current-as-of marker and
the download anchor must be present, or the parse is the Failure
marker. -/
def parse_dmf_page_details (page : DmfPage) : Option DmfDetails :=
  if page.emptyBody then none
  else
    match page.currentDateAttr with
    | none => none
    | some dt =>
      match page.excelHref with
      | none => none
      | some href =>
        some { update_date := firstSplitTok 'T' dt
               download_url :=
                 if href.startsWith "http" then href
                 else FDA_BASE_URL ++ href }

structure DmfEnv where
  landing : Option ChallengePage
  page : Option DmfPage
deriving Repr, DecidableEq

/-- `check_dmf_details` of fda_dmf_source.py. -/
def check_dmf_details (env : DmfEnv) : Option DmfDetails :=
  match solve_challenge_and_get_session fdaDomain env.landing with
  | none => none
  | some _session =>
    match env.page with
    | none => none
    | some page => parse_dmf_page_details page

/-! ## Consolidator (consolidate_results.py)

The consolidator receives the raw per-source results as dynamically typed
Python values, so its input is embedded as a small Python-value type. -/

inductive PyVal where
  | pyNone : PyVal
  | pyBool : Bool → PyVal
  | pyInt : Int → PyVal
  | pyStr : String → PyVal
  | pyList : List PyVal → PyVal
  | pyDict : List (String × PyVal) → PyVal

/-- `d.get(k)`: the first binding of the key, or Python None. -/
def pyDictGet (kvs : List (String × PyVal)) (k : String) : PyVal :=
  match kvs.find? (fun p => p.1 == k) with
  | some p => p.2
  | none => .pyNone

/-- `d.get(k, dflt)`. -/
def pyDictGetD (kvs : List (String × PyVal)) (k : String) (dflt : PyVal) :
    PyVal :=
  match kvs.find? (fun p => p.1 == k) with
  | some p => p.2
  | none => dflt

/-- `k in d`. -/
def pyDictHas (kvs : List (String × PyVal)) (k : String) : Bool :=
  (kvs.find? (fun p => p.1 == k)).isSome

/-- The per-source loop of `consolidate_source_data`: accumulates the
report entries in order and the running total.  A package that is neither
None nor a dict has no `.get` attribute, so the subscript in the first
branch condition raises an AttributeError nothing catches
(`Except.error`). -/
def consolidateLoop :
    List (String × PyVal) → Except Unit (List (String × PyVal) × Int)
  | [] => .ok ([], 0)
  | (name, pkg) :: rest =>
    match pkg with
    | .pyNone => consolidateLoop rest
    | .pyDict d =>
      match pyDictGet d "data" with
      | .pyList updates =>
        match consolidateLoop rest with
        | .error e => .error e
        | .ok (entries, total) =>
          .ok ((name, .pyDict
            [("updates", .pyList updates),
             ("source_url", pyDictGetD d "source_url" (.pyStr "")),
             ("update_count", .pyInt updates.length)]) :: entries,
            total + updates.length)
      | _ =>
        if pyDictHas d "update_date" then
          match consolidateLoop rest with
          | .error e => .error e
          | .ok (entries, total) => .ok ((name, pkg) :: entries, total)
        else consolidateLoop rest
    | _ => .error ()

/-- `consolidate_source_data`: a non-dict input returns the Failure marker
(`.ok none`); a dict input yields the report with the accumulated
`total_updates` appended, unless the loop raises. -/
def consolidate_source_data (raw : PyVal) : Except Unit (Option PyVal) :=
  match raw with
  | .pyDict kvs =>
    match consolidateLoop kvs with
    | .error e => .error e
    | .ok (entries, total) =>
      .ok (some (.pyDict (entries ++ [("total_updates", .pyInt total)])))
  | _ => .ok none

/-! ## Manager (manager.py) -/

inductive SourceName where
  | edqm | cdsco | fda | dmf
deriving Repr, DecidableEq

/-- The fixed priority order of the orchestrated sources. -/
def srcOrder : Nat → SourceName
  | 0 => .edqm
  | 1 => .cdsco
  | 2 => .fda
  | _ => .dmf

/-- `int(os.environ.get("DAYS_TO_CHECK", "3"))` with the ValueError
fallback of 7. -/
def getDaysToCheck (v : Option String) : Int :=
  match v with
  | none => 3
  | some s =>
    match pyInt s with
    | some n => n
    | none => 7

/-- The recipient parsing of manager.py: split on commas, strip, drop
empties. -/
def parseRecipients (s : String) : List String :=
  ((pySplit ',' s).map pyStrip).filter (fun e => e != "")

/-- The environment of one orchestration run: the two configuration
variables, the outcome of each source adapter call (a Python value for a
success, `none` for the Failure marker), the HTML generator outcome
(subject and body, `none` for a falsy package) and the send outcome. -/
structure ManagerEnv where
  daysVar : Option String
  recipientsVar : Option String
  edqmResult : Option PyVal
  cdscoResult : Option PyVal
  fdaResult : Option PyVal
  dmfResult : Option PyVal
  htmlResult : Option (String × String)
  sendResult : Bool

/-- The source-adapter outcome of the environment for a given source. -/
def ManagerEnv.sourceResult (env : ManagerEnv) : SourceName → Option PyVal
  | .edqm => env.edqmResult
  | .cdsco => env.cdscoResult
  | .fda => env.fdaResult
  | .dmf => env.dmfResult

/-- The observable trace of one run: the boolean result, the sources
invoked (in order), and whether the email send was invoked. -/
structure RunTrace where
  success : Bool
  invoked : List SourceName
  notified : Bool
deriving Repr, DecidableEq

/-- `run_all_checks_and_notify` of manager.py.  Sources are checked in the
fixed order EDQM, CDSCO, FDA warning letters, FDA DMF; the first Failure
marker returns false at once; on full source success the results map is
consolidated (an AttributeError escaping the consolidator is `.error`),
rendered and sent, and the run succeeds only if the send reports true. -/
def run_all_checks_and_notify (env : ManagerEnv) : Except Unit RunTrace :=
  let _daysToCheck := getDaysToCheck env.daysVar
  match env.recipientsVar with
  | none => .ok ⟨false, [], false⟩
  | some recipientsStr =>
    if recipientsStr == "" then .ok ⟨false, [], false⟩
    else if parseRecipients recipientsStr == [] then .ok ⟨false, [], false⟩
    else
      match env.edqmResult with
      | none => .ok ⟨false, [.edqm], false⟩
      | some edqmUpdates =>
        match env.cdscoResult with
        | none => .ok ⟨false, [.edqm, .cdsco], false⟩
        | some cdscoUpdates =>
          match env.fdaResult with
          | none => .ok ⟨false, [.edqm, .cdsco, .fda], false⟩
          | some fdaUpdates =>
            match env.dmfResult with
            | none => .ok ⟨false, [.edqm, .cdsco, .fda, .dmf], false⟩
            | some dmfDetails =>
              let rawResults : PyVal := .pyDict
                [("edqm", edqmUpdates), ("cdsco", cdscoUpdates),
                 ("fda", fdaUpdates), ("fda_dmf", dmfDetails)]
              match consolidate_source_data rawResults with
              | .error e => .error e
              | .ok none =>
                .ok ⟨false, [.edqm, .cdsco, .fda, .dmf], false⟩
              | .ok (some _report) =>
                match env.htmlResult with
                | none => .ok ⟨false, [.edqm, .cdsco, .fda, .dmf], false⟩
                | some _pkg =>
                  .ok ⟨env.sendResult, [.edqm, .cdsco, .fda, .dmf], true⟩

end PharmaReg

namespace PharmaReg

/-! ## Validation of the embedding primitives -/

/-- Sanity checks of the calendar embedding against known values. -/
theorem rataDie_checks :
    rataDie 1970 1 1 = 0 ∧ rataDie 2000 3 1 = 11017 ∧
    rataDie 2025 12 31 = 20453 ∧ rataDie 2024 2 29 = 19782 ∧
    civilFromDays 0 = (1970, 1, 1) ∧ civilFromDays 20453 = (2025, 12, 31) ∧
    civilFromDays 11017 = (2000, 3, 1) ∧ civilFromDays (-1) = (1969, 12, 31) := by
  decide

/-- Sanity checks of the strptime, strftime and int embeddings. -/
theorem parse_format_checks :
    parseISODate "2025-10-05" = some (2025, 10, 5) ∧
    parseISODate "2025-02-30" = none ∧
    parseISODate "not-a-date" = none ∧
    parseDMYDate "05/10/2025" = some (2025, 10, 5) ∧
    formatISO (2025, 10, 5) = "2025-10-05" ∧
    formatDMY (2025, 10, 5) = "05/10/2025" ∧
    pyInt "42" = some 42 ∧ pyInt " -7 " = some (-7) ∧ pyInt "abc" = none ∧
    pyInt "3" = some 3 := by
  decide

/-- Validation of the SHA-256 embedding against published test vectors. -/
theorem sha256_vectors :
    compute_sha256 "abc" =
      "BA7816BF8F01CFEA414140DE5DAE2223B00361A396177A9CB410FF61F20015AD" ∧
    compute_sha256 "" =
      "E3B0C44298FC1C149AFBF4C8996FB92427AE41E4649B934CA495991B7852B855" := by
  constructor <;> rfl

end PharmaReg

namespace PharmaReg

/-! ## Claim C9 — the lookback default -/

/-- C9 counterexample: the claim says one single fixed default serves both
the absent case and the invalid case, but manager.py falls back to 3 when
DAYS_TO_CHECK is absent and to 7 when it is present but unparsable. -/
theorem daysToCheck_two_defaults :
    getDaysToCheck none = 3 ∧ getDaysToCheck (some "abc") = 7 ∧
    (3 : Int) ≠ 7 := by
  decide

/-- C9 (amended): an absent DAYS_TO_CHECK falls back to 3, a present but
unparsable one falls back to 7 (two distinct fixed defaults), and a
parsable one is used as given. -/
theorem daysToCheck_defaults :
    getDaysToCheck none = 3 ∧
    (∀ s, pyInt s = none → getDaysToCheck (some s) = 7) ∧
    (∀ s n, pyInt s = some n → getDaysToCheck (some s) = n) := by
  refine ⟨rfl, ?_, ?_⟩
  · intro s h
    simp [getDaysToCheck, h]
  · intro s n h
    simp [getDaysToCheck, h]

/-- C9 witness: the amended theorem applied at concrete inputs. -/
theorem daysToCheck_defaults_witness :
    getDaysToCheck none = 3 ∧ getDaysToCheck (some "oops") = 7 ∧
    getDaysToCheck (some "12") = 12 :=
  ⟨daysToCheck_defaults.1,
   daysToCheck_defaults.2.1 "oops" (by decide),
   daysToCheck_defaults.2.2 "12" 12 (by decide)⟩

/-! ## Claim C7 — EDQM zero-results disambiguation -/

/-- C7: with a non-empty body and the results table structurally absent,
the EDQM parse is Success-empty exactly when the known zero-results text
is present, and the Failure marker when it is absent too. -/
theorem edqm_parse_table_absent (p : EdqmPage) (hbody : p.emptyBody = false)
    (htable : p.table = none) :
    parse_edqm_table p = (if p.hasNoResultsText then some [] else none) := by
  simp [parse_edqm_table, hbody, htable]

/-- C7 witness: the theorem applied at a concrete page for each branch. -/
theorem edqm_parse_table_absent_witness :
    parse_edqm_table ⟨false, none, true⟩ = some [] ∧
    parse_edqm_table ⟨false, none, false⟩ = none := by
  constructor
  · simpa using edqm_parse_table_absent ⟨false, none, true⟩ rfl rfl
  · simpa using edqm_parse_table_absent ⟨false, none, false⟩ rfl rfl

/-! ## Claim C1 — Failure on a structurally absent container -/

/-- C1 counterexample: the FDA warning-letter parser has no Failure
outcome at all; on a JSON dict without a data array it returns the empty
record sequence, which the claim says never happens. -/
theorem fda_parse_dataAbsent_empty :
    parse_fda_letters .dictNoData = ([] : List FdaRecord) := rfl

/-- C1 (amended): the CDSCO and DMF parsers return the Failure marker
whenever their expected container or markers are structurally absent from
a non-empty body, and so does the EDQM parser when the zero-results text
is also absent; the FDA warning-letter parser instead returns the empty
record sequence when the JSON data array is absent. -/
theorem parsers_container_absent :
    (∀ p : CdscoPage, p.emptyBody = false → p.table = none →
      parse_cdsco_table p = none) ∧
    (∀ p : DmfPage, p.emptyBody = false →
      p.currentDateAttr = none ∨ p.excelHref = none →
      parse_dmf_page_details p = none) ∧
    (∀ p : EdqmPage, p.emptyBody = false → p.table = none →
      p.hasNoResultsText = false → parse_edqm_table p = none) ∧
    parse_fda_letters .dictNoData = ([] : List FdaRecord) := by
  refine ⟨?_, ?_, ?_, rfl⟩
  · intro p hbody htable
    simp [parse_cdsco_table, hbody, htable]
  · intro p hbody hmiss
    rcases hmiss with h | h <;>
      · cases hd : p.currentDateAttr <;>
          simp_all [parse_dmf_page_details, hbody]
  · intro p hbody htable htext
    simp [parse_edqm_table, hbody, htable, htext]

/-- C1 witness: the amended theorem applied at concrete pages. -/
theorem parsers_container_absent_witness :
    parse_cdsco_table ⟨false, none⟩ = none ∧
    parse_dmf_page_details ⟨false, none, some "/x.xlsx"⟩ = none ∧
    parse_dmf_page_details ⟨false, some "2025-10-01T00:00", none⟩ = none ∧
    parse_edqm_table ⟨false, none, false⟩ = none :=
  ⟨parsers_container_absent.1 ⟨false, none⟩ rfl rfl,
   parsers_container_absent.2.1 ⟨false, none, some "/x.xlsx"⟩ rfl (Or.inl rfl),
   parsers_container_absent.2.1 ⟨false, some "2025-10-01T00:00", none⟩ rfl
     (Or.inr rfl),
   parsers_container_absent.2.2.1 ⟨false, none, false⟩ rfl rfl rfl⟩

end PharmaReg

namespace PharmaReg

/-! ## Claim C4 — retry bound and backoff sum -/

/-- The cumulative linear backoff schedule: the sum of
`backoff * attemptNumber` over the first `n` sleeps. -/
def backoffSchedule (backoff : Nat) : Nat → Nat
  | 0 => 0
  | n + 1 => backoffSchedule backoff n + backoff * (n + 1)

/-- The same sum started after attempt `a`. -/
def backoffFrom (backoff a : Nat) : Nat → Nat
  | 0 => 0
  | n + 1 => backoff * (a + 1) + backoffFrom backoff (a + 1) n

theorem backoffFrom_succ (backoff : Nat) :
    ∀ n a, backoffFrom backoff a (n + 1) =
      backoffFrom backoff a n + backoff * (a + n + 1) := by
  intro n
  induction n with
  | zero => intro a; simp [backoffFrom]
  | succ m ih =>
    intro a
    have h1 : backoffFrom backoff a (m + 1 + 1) =
        backoff * (a + 1) + backoffFrom backoff (a + 1) (m + 1) := rfl
    have h2 : backoffFrom backoff a (m + 1) =
        backoff * (a + 1) + backoffFrom backoff (a + 1) m := rfl
    rw [h1, h2, ih (a + 1)]
    have h3 : a + 1 + m + 1 = a + (m + 1) + 1 := by omega
    rw [h3]
    ring

theorem backoffFrom_zero (backoff : Nat) :
    ∀ n, backoffFrom backoff 0 n = backoffSchedule backoff n := by
  intro n
  induction n with
  | zero => rfl
  | succ m ih =>
    rw [backoffFrom_succ, ih]
    simp [backoffSchedule]

/-- The retry loop issues at least one attempt when it may, at most
`remaining` attempts, and sleeps exactly the linear backoff schedule over
the attempts that had a successor. -/
theorem fetchWithRetry_spec {α : Type} (transport : Nat → Option α)
    (backoff : Nat) :
    ∀ remaining attempt,
      (1 ≤ remaining →
        1 ≤ (fetchWithRetry transport backoff attempt remaining).2.1) ∧
      (fetchWithRetry transport backoff attempt remaining).2.1 ≤ remaining ∧
      (fetchWithRetry transport backoff attempt remaining).2.2 =
        backoffFrom backoff attempt
          ((fetchWithRetry transport backoff attempt remaining).2.1 - 1) := by
  intro remaining
  induction remaining with
  | zero => intro attempt; simp [fetchWithRetry, backoffFrom]
  | succ rem ih =>
    intro attempt
    simp only [fetchWithRetry]
    cases transport attempt with
    | some body => simp [backoffFrom]
    | none =>
      by_cases hrem : rem = 0
      · simp [hrem, backoffFrom]
      · have hne : (rem == 0) = false := by simp [hrem]
        simp only [hne, Bool.false_eq_true, if_false]
        obtain ⟨h1, h2, h3⟩ := ih (attempt + 1)
        have h1' := h1 (Nat.one_le_iff_ne_zero.mpr hrem)
        refine ⟨fun _ => by omega, by omega, ?_⟩
        simp only [h3]
        obtain ⟨n, hn⟩ := Nat.exists_eq_add_of_le h1'
        rw [hn, Nat.add_comm 1 n]
        simp only [Nat.add_sub_cancel]
        rfl

/-- C4: the CDSCO fetch issues at most 3 attempts against the transport
and its total sleep is exactly the linear 5-second backoff schedule over
the attempts that were followed by a retry; the EDQM fetch issues a single
attempt with zero sleep, so both stay within the bound. -/
theorem fetch_retry_bound_and_backoff :
    (∀ transport : Nat → Option CdscoPage,
      (fetch_cdsco_html transport).2.1 ≤ 3 ∧
      (fetch_cdsco_html transport).2.2 =
        backoffSchedule 5 ((fetch_cdsco_html transport).2.1 - 1)) ∧
    (∀ (now : PyDateTime) (daysAgo : Nat) (transport : Option EdqmPage),
      (fetch_edqm_html now daysAgo transport).2.1 = 1 ∧
      (fetch_edqm_html now daysAgo transport).2.2 = 0) := by
  constructor
  · intro transport
    obtain ⟨_, h2, h3⟩ := fetchWithRetry_spec transport 5 3 0
    exact ⟨h2, by rw [fetch_cdsco_html, h3, backoffFrom_zero]⟩
  · intro now daysAgo transport
    exact ⟨rfl, rfl⟩

/-- C4 witness: an always-failing transport exhausts the 3 attempts and
sleeps 5 + 10 = 15 seconds; a transport succeeding on the second attempt
issues 2 attempts and sleeps 5 seconds. -/
theorem fetch_retry_bound_and_backoff_witness :
    ((fetch_cdsco_html (fun _ => (none : Option CdscoPage))).2.1 ≤ 3 ∧
      (fetch_cdsco_html (fun _ => (none : Option CdscoPage))).2.2 =
        backoffSchedule 5
          ((fetch_cdsco_html (fun _ => (none : Option CdscoPage))).2.1 - 1)) ∧
    (fetch_cdsco_html (fun _ => (none : Option CdscoPage))).2 = (3, 15) ∧
    (fetch_cdsco_html (fun a => if a == 1 then some (⟨false, none⟩ : CdscoPage)
      else none)).2 = (2, 5) ∧
    (fetch_edqm_html ⟨20000, 0⟩ 7 none).2 = (1, 0) :=
  ⟨fetch_retry_bound_and_backoff.1 (fun _ => none), rfl, rfl, rfl⟩

/-! ## Claim C5 — challenge solver determinism and failure -/

/-- C5: whenever the challenge is detected and both page markers are
captured (with at least two slash-separated candidates), the solver
returns the session whose two cookies are exactly the uppercase hex
SHA-256 of the salt concatenated with each candidate, set as
authorization_1 and authorization_2 on the domain — the same values for
the same salt and candidates, whatever else the page contains; and
whenever the challenge is detected but either marker is absent, the
solver returns the Failed marker, never a partially-authorized session. -/
theorem challenge_solver_cookies_and_fail :
    (∀ (domain : String) (p : ChallengePage) (salt candStr c0 c1 : String)
      (rest : List String),
      challengeDetected p = true →
      p.saltCapture = some salt →
      p.candidatesCapture = some candStr →
      pySplit '/' candStr = c0 :: c1 :: rest →
      solve_challenge_and_get_session domain (some p) =
        some ⟨[("authorization_1", compute_sha256 (salt ++ c0), domain),
               ("authorization_2", compute_sha256 (salt ++ c1), domain)]⟩) ∧
    (∀ (domain : String) (p : ChallengePage),
      challengeDetected p = true →
      p.saltCapture = none ∨ p.candidatesCapture = none →
      solve_challenge_and_get_session domain (some p) = none) := by
  constructor
  · intro domain p salt candStr c0 c1 rest hdet hsalt hcand hsplit
    have h1 : (p.status == 200 && !p.hasAbuseJs) = false := by
      unfold challengeDetected at hdet
      cases h : (p.status == 200 && !p.hasAbuseJs) <;> simp_all
    have h2 : (p.hasAbuseJs || p.hasPublicSalt) = true := by
      unfold challengeDetected at hdet
      simp_all
    simp [solve_challenge_and_get_session, h1, h2, hsalt, hcand, hsplit]
  · intro domain p hdet hmiss
    have h1 : (p.status == 200 && !p.hasAbuseJs) = false := by
      unfold challengeDetected at hdet
      cases h : (p.status == 200 && !p.hasAbuseJs) <;> simp_all
    have h2 : (p.hasAbuseJs || p.hasPublicSalt) = true := by
      unfold challengeDetected at hdet
      simp_all
    rcases hmiss with h | h
    · cases hc : p.candidatesCapture <;>
        simp [solve_challenge_and_get_session, h1, h2, h, hc]
    · cases hs : p.saltCapture <;>
        simp [solve_challenge_and_get_session, h1, h2, h, hs]

/-- C5 witness: the theorem applied at a concrete challenged page — the
two cookie values are fully evaluated digests — and at a page missing the
candidates marker. -/
theorem challenge_solver_cookies_and_fail_witness :
    solve_challenge_and_get_session "www.fda.gov"
      (some ⟨403, true, true, some "salt", some "abc/def"⟩) =
      some ⟨[("authorization_1",
              "3681099918BE28C95B81E27E7E5C2E4C6A6DEA566D2D10E7F49139EBB779EB6F",
              "www.fda.gov"),
             ("authorization_2",
              "AC215FC8C950F63C769970321E646AC59D641FB890895D586C72E0A3BBF93FD5",
              "www.fda.gov")]⟩ ∧
    solve_challenge_and_get_session "www.fda.gov"
      (some ⟨403, true, true, some "salt", none⟩) = none := by
  constructor
  · have h := challenge_solver_cookies_and_fail.1 "www.fda.gov"
      ⟨403, true, true, some "salt", some "abc/def"⟩ "salt" "abc/def"
      "abc" "def" [] (by decide) rfl rfl (by decide)
    rw [h]
    rfl
  · exact challenge_solver_cookies_and_fail.2 "www.fda.gov"
      ⟨403, true, true, some "salt", none⟩ (by decide) (Or.inr rfl)

end PharmaReg

namespace PharmaReg

/-! ## Claim C3 — date-window filter semantics -/

/-- C3 counterexample: in the FDA adapter the filter comprehension calls
`strptime` on any present non-empty date with nothing catching the
ValueError, so a record whose date is present but unparsable raises
instead of being dropped. -/
theorem fda_filter_raises_on_unparsable :
    fdaDateFilter
      [{ posted_date := some "not-a-date", issue_date := none,
         company_name := "Acme", issuing_office := "", subject := "",
         letter_url := none }] ⟨20000, 0⟩ 7 = .error () := rfl

/-- C3 (amended), part 1: the CDSCO filter loop keeps a record exactly
when its date parses as YYYY-MM-DD and is on or after
`today - daysToCheck` (inclusive, calendar dates); missing and unparsable
dates are dropped without raising. -/
theorem cdsco_filter_eq (certs : List CdscoRecord) (now : PyDateTime)
    (daysToCheck : Nat) :
    cdscoDateFilter certs now daysToCheck =
      certs.filter (cdscoKeeps now daysToCheck) := by
  induction certs with
  | nil => rfl
  | cons c rest ih =>
    simp only [cdscoDateFilter, List.filter_cons, ih]
    by_cases hempty : c.release_date = ""
    · have hpe : parseISODate "" = none := rfl
      simp [hempty, cdscoKeeps, hpe]
    · have hne : (c.release_date == "") = false := by
        simp [hempty]
      cases hp : parseISODate c.release_date with
      | none => simp [hne, cdscoKeeps, hp]
      | some ymd =>
        obtain ⟨y, m, d⟩ := ymd
        by_cases hcut : rataDie y m d ≥ (now.subDays daysToCheck).date <;>
          simp [hne, cdscoKeeps, hp, hcut]

/-- C3 (amended), part 2: when every present non-empty date parses, the
FDA filter returns (without raising) exactly the records whose date is on
or after the cutoff, inclusive; and when some present non-empty date does
not parse, it raises. -/
theorem fda_filter_semantics (letters : List FdaRecord) (now : PyDateTime)
    (daysToCheck : Nat) :
    ((∀ l ∈ letters, ∀ s, l.posted_date = some s → s ≠ "" →
        (parseISODate s).isSome = true) →
      fdaDateFilter letters now daysToCheck =
        .ok (letters.filter (fdaKeeps now daysToCheck))) ∧
    (∀ l ∈ letters, ∀ s, l.posted_date = some s → s ≠ "" →
      parseISODate s = none →
      fdaDateFilter letters now daysToCheck = .error ()) := by
  induction letters with
  | nil => exact ⟨fun _ => rfl, by simp⟩
  | cons l rest ih =>
    constructor
    · intro hall
      have hrest := ih.1 (fun x hx => hall x (List.mem_cons_of_mem l hx))
      simp only [fdaDateFilter, List.filter_cons]
      cases hpd : l.posted_date with
      | none => simp [hrest, fdaKeeps, hpd]
      | some s =>
        by_cases hs : s = ""
        · simp [hrest, fdaKeeps, hpd, hs]
        · have hps := hall l (List.mem_cons_self l rest) s hpd hs
          cases hp : parseISODate s with
          | none => rw [hp] at hps; simp at hps
          | some ymd =>
            obtain ⟨y, m, d⟩ := ymd
            have hsne : (s == "") = false := by simp [hs]
            by_cases hcut : rataDie y m d ≥ (now.subDays daysToCheck).date <;>
              simp [fdaKeeps, hpd, hsne, hp, hcut, hrest]
    · intro l' hmem s hpd hs hbad
      rcases List.mem_cons.mp hmem with heq | hmem'
      · subst heq
        have hsne : (s == "") = false := by simp [hs]
        simp [fdaDateFilter, hpd, hsne, hbad]
      · have hrest := ih.2 l' hmem' s hpd hs hbad
        simp only [fdaDateFilter]
        cases hpd' : l.posted_date with
        | none => exact hrest
        | some t =>
          by_cases ht : t = ""
          · simp [ht, hrest]
          · have htne : (t == "") = false := by simp [ht]
            simp only [htne, Bool.false_eq_true, if_false]
            cases hp' : parseISODate t with
            | none => rfl
            | some ymd =>
              obtain ⟨y, m, d⟩ := ymd
              rw [hrest]

/-- C3 (amended): the combined statement — the CDSCO filter keeps a record
if and only if its date parses and lies on or after the inclusive calendar
cutoff, dropping missing and unparsable dates without raising, and neither
filter depends on the time of day of either side; the FDA filter behaves
the same except that a present unparsable date raises instead of being
dropped. -/
theorem date_window_filter_semantics :
    (∀ certs now daysToCheck,
      cdscoDateFilter certs now daysToCheck =
        certs.filter (cdscoKeeps now daysToCheck)) ∧
    (∀ certs (day : Int) (secs secs' daysToCheck : Nat),
      cdscoDateFilter certs ⟨day, secs⟩ daysToCheck =
        cdscoDateFilter certs ⟨day, secs'⟩ daysToCheck) ∧
    (∀ letters now daysToCheck,
      (∀ l ∈ letters, ∀ s, l.posted_date = some s → s ≠ "" →
        (parseISODate s).isSome = true) →
      fdaDateFilter letters now daysToCheck =
        .ok (letters.filter (fdaKeeps now daysToCheck))) ∧
    (∀ letters now daysToCheck, ∀ l ∈ letters, ∀ s,
      l.posted_date = some s → s ≠ "" → parseISODate s = none →
      fdaDateFilter letters now daysToCheck = .error ()) := by
  refine ⟨fun certs now daysToCheck => cdsco_filter_eq certs now daysToCheck,
    ?_, fun letters now daysToCheck => (fda_filter_semantics _ _ _).1,
    fun letters now daysToCheck => (fda_filter_semantics _ _ _).2⟩
  intro certs day secs secs' daysToCheck
  rw [cdsco_filter_eq, cdsco_filter_eq]
  rfl

/-- C3 witness: the amended theorem applied to a concrete record list —
day 20000 with a 7-day window at cutoff day 19993: 19993 is kept
(inclusive boundary), 19992 is dropped, a missing and an unparsable date
are dropped on the CDSCO side, and the unparsable date raises on the FDA
side. -/
theorem date_window_filter_semantics_witness :
    cdscoDateFilter
      [{ release_date := "2024-09-27", s_no := "1", wc_number := "A",
         company_name := "X", products := "p", download_pdf_link := "",
         pdf_size := "" },
       { release_date := "2024-09-26", s_no := "2", wc_number := "B",
         company_name := "Y", products := "q", download_pdf_link := "",
         pdf_size := "" },
       { release_date := "", s_no := "3", wc_number := "C",
         company_name := "Z", products := "r", download_pdf_link := "",
         pdf_size := "" },
       { release_date := "junk", s_no := "4", wc_number := "D",
         company_name := "W", products := "s", download_pdf_link := "",
         pdf_size := "" }] ⟨20000, 12345⟩ 7 =
      [{ release_date := "2024-09-27", s_no := "1", wc_number := "A",
         company_name := "X", products := "p", download_pdf_link := "",
         pdf_size := "" }] ∧
    fdaDateFilter
      [{ posted_date := some "junk", issue_date := none,
         company_name := "Acme", issuing_office := "", subject := "",
         letter_url := none }] ⟨20000, 12345⟩ 7 = .error () := by
  constructor
  · rw [date_window_filter_semantics.1]
    rfl
  · exact date_window_filter_semantics.2.2.2
      [{ posted_date := some "junk", issue_date := none,
         company_name := "Acme", issuing_office := "", subject := "",
         letter_url := none }] ⟨20000, 12345⟩ 7 _ (List.mem_singleton.mpr rfl)
      "junk" rfl (by decide) rfl

end PharmaReg

namespace PharmaReg

/-! ## Claim C8 — EDQM lenient date policy -/

/-- C8 counterexample: a fetched page with one eleven-cell row whose date
field does not parse — the parser keeps the row with its raw date, and the
adapter result (the windowed result handed to the orchestrator) still
contains that row, because the EDQM adapter applies no client-side
date-window filter; the claim says the filtering would exclude it. -/
theorem edqm_raw_date_row_in_package :
    edqm_check_for_updates ⟨20000, 0⟩ 7
      (some ⟨false,
        some ⟨some [["M123", "Sub", "T", "Holder", "ID", "CERT1",
          "99/99/9999", "Valid", "", "", ""]]⟩, false⟩) =
      some ⟨[⟨"M123", "Sub", "T", "Holder", "ID", "CERT1", "99/99/9999",
        "Valid", "", "", "", some (MONOGRAPH_BASE_URL ++ "M123")⟩],
        edqmResultsUrl ⟨20000, 0⟩ 7⟩ := rfl

/-- C8 (amended): an eleven-cell EDQM row whose date fails the DD/MM/YYYY
parse is kept with its raw un-normalized date value (rows whose dates do
parse are normalized to YYYY-MM-DD), and because the EDQM adapter performs
no client-side date-window filtering (the window lives in the query
parameters), such a row remains in the adapter result package without
failing the run. -/
theorem edqm_lenient_dates_no_client_window :
    (∀ cells : List String, cells.length = 11 →
      parseDMYDate (cells.getD 6 "") = none →
      (edqmRowRecord cells).issue_date_cep = cells.getD 6 "") ∧
    (∀ (cells : List String) ymd, cells.length = 11 →
      parseDMYDate (cells.getD 6 "") = some ymd →
      (edqmRowRecord cells).issue_date_cep = formatISO ymd) ∧
    (∀ (now : PyDateTime) (daysToCheck : Nat) rows (p : EdqmPage),
      p.emptyBody = false → p.table = some ⟨some rows⟩ →
      edqm_check_for_updates now daysToCheck (some p) =
        some ⟨(rows.filter (fun cells => cells.length == 11)).map
          edqmRowRecord, edqmResultsUrl now daysToCheck⟩) := by
  have hproj : ∀ cells : List String,
      (edqmRowRecord cells).issue_date_cep =
        match parseDMYDate (cells.getD 6 "") with
        | some ymd => formatISO ymd
        | none => cells.getD 6 "" := fun _ => rfl
  refine ⟨?_, ?_, ?_⟩
  · intro cells _ hbad
    rw [hproj, hbad]
  · intro cells ymd _ hgood
    rw [hproj, hgood]
  · intro now daysToCheck rows p hbody htable
    simp [edqm_check_for_updates, fetch_edqm_html, parse_edqm_table,
      hbody, htable]

/-- C8 witness: the amended theorem applied at a concrete unparsable-date
row (kept raw, present in the package) and a concrete parsable-date row
(normalized). -/
theorem edqm_lenient_dates_no_client_window_witness :
    (edqmRowRecord ["M1", "S", "T", "H", "I", "C", "31/13/2024", "V", "",
      "", ""]).issue_date_cep = "31/13/2024" ∧
    (edqmRowRecord ["M1", "S", "T", "H", "I", "C", "05/10/2025", "V", "",
      "", ""]).issue_date_cep = "2025-10-05" ∧
    edqm_check_for_updates ⟨20000, 0⟩ 7
      (some ⟨false, some ⟨some [["M1", "S", "T", "H", "I", "C",
        "31/13/2024", "V", "", "", ""]]⟩, false⟩) =
      some ⟨[edqmRowRecord ["M1", "S", "T", "H", "I", "C", "31/13/2024",
        "V", "", "", ""]], edqmResultsUrl ⟨20000, 0⟩ 7⟩ := by
  refine ⟨?_, ?_, ?_⟩
  · exact edqm_lenient_dates_no_client_window.1
      ["M1", "S", "T", "H", "I", "C", "31/13/2024", "V", "", "", ""]
      (by decide) (by decide)
  · have h := edqm_lenient_dates_no_client_window.2.1
      ["M1", "S", "T", "H", "I", "C", "05/10/2025", "V", "", "", ""]
      (2025, 10, 5) (by decide) (by decide)
    rw [h]
    rfl
  · have h := edqm_lenient_dates_no_client_window.2.2 ⟨20000, 0⟩ 7
      [["M1", "S", "T", "H", "I", "C", "31/13/2024", "V", "", "", ""]]
      ⟨false, some ⟨some [["M1", "S", "T", "H", "I", "C", "31/13/2024",
        "V", "", "", ""]]⟩, false⟩ rfl rfl
    exact h.trans (by rfl)

/-! ## Claim C6 — source_url provenance -/

/-- C6 counterexample: a fully successful FDA warning-letter check whose
package reports the static landing-page constant as its source_url, while
the URL actually queried for the data is the AJAX endpoint with its
runtime-computed parameters — the two differ. -/
theorem fda_source_url_not_queried_url :
    fda_check_for_updates 7
      ⟨some ⟨200, false, false, none, none⟩, none, 1700000000000,
        ⟨20000, 0⟩, some (.dictWithData [])⟩ =
      .ok (some ⟨[], FDA_WL_PAGE_URL⟩) ∧
    FDA_WL_PAGE_URL ≠ fdaAjaxQueriedUrl 1700000000000 none := by
  constructor
  · rfl
  · decide

/-- C6 (amended): the EDQM package reports the literal prepared URL its
fetch queried, which resolves the date-range parameters at run time (two
different windows give two different URLs); the CDSCO package reports the
literal parameterless URL it queried; the FDA warning-letter package
instead reports the static landing-page constant, not the AJAX URL the
data was actually queried from. -/
theorem source_url_provenance :
    (∀ now daysToCheck transport pkg,
      edqm_check_for_updates now daysToCheck transport = some pkg →
      pkg.source_url = edqmResultsUrl now daysToCheck) ∧
    edqmResultsUrl ⟨20000, 0⟩ 7 ≠ edqmResultsUrl ⟨20000, 0⟩ 3 ∧
    (∀ now daysToCheck transport pkg,
      cdsco_check_for_updates now daysToCheck transport = some pkg →
      pkg.source_url = CDSCO_WC_URL) ∧
    (∀ daysToCheck env pkg,
      fda_check_for_updates daysToCheck env = .ok (some pkg) →
      pkg.source_url = FDA_WL_PAGE_URL) := by
  refine ⟨?_, ?_, ?_, ?_⟩
  · intro now daysToCheck transport pkg h
    cases transport with
    | none => simp [edqm_check_for_updates, fetch_edqm_html] at h
    | some page =>
      have h' : (match parse_edqm_table page with
        | none => none
        | some data =>
          some ({ data := data,
                  source_url := edqmResultsUrl now daysToCheck } :
            EdqmResultPackage)) = some pkg := h
      cases hp : parse_edqm_table page with
      | none => rw [hp] at h'; cases h'
      | some data => rw [hp] at h'; cases h'; rfl
  · decide
  · intro now daysToCheck transport pkg h
    unfold cdsco_check_for_updates at h
    split at h
    · simp at h
    · split at h
      · simp at h
      · simp only [Option.some.injEq] at h
        rw [← h]
  · intro daysToCheck env pkg h
    unfold fda_check_for_updates at h
    split at h
    · simp at h
    · split at h
      · simp at h
      · dsimp only at h
        split at h
        · simp at h
        · simp only [Except.ok.injEq, Option.some.injEq] at h
          rw [← h]

/-- C6 witness: the amended theorem applied at concrete successful runs of
each adapter. -/
theorem source_url_provenance_witness :
    (⟨[], edqmResultsUrl ⟨20000, 0⟩ 7⟩ : EdqmResultPackage).source_url =
      edqmResultsUrl ⟨20000, 0⟩ 7 ∧
    (⟨[], CDSCO_WC_URL⟩ : CdscoResultPackage).source_url = CDSCO_WC_URL ∧
    (⟨[], FDA_WL_PAGE_URL⟩ : FdaResultPackage).source_url =
      FDA_WL_PAGE_URL := by
  refine ⟨?_, ?_, ?_⟩
  · exact source_url_provenance.1 ⟨20000, 0⟩ 7
      (some ⟨false, none, true⟩) _ rfl
  · exact source_url_provenance.2.2.1 ⟨20000, 0⟩ 7
      (fun _ => some ⟨false, some ⟨none⟩⟩) _ rfl
  · exact source_url_provenance.2.2.2 7
      ⟨some ⟨200, false, false, none, none⟩, none, 1700000000000,
        ⟨20000, 0⟩, some .dictNoData⟩ _ rfl

end PharmaReg

namespace PharmaReg

/-! ## Claim C10 — consolidator total and tolerance -/

/-- The record count a package contributes to total_updates: the length of
its data list when the package is a dict whose data entry is a list, and
zero otherwise. -/
def listShapedCount (pkg : PyVal) : Int :=
  match pkg with
  | .pyDict d =>
    match pyDictGet d "data" with
    | .pyList updates => updates.length
    | _ => 0
  | _ => 0

/-- Whether a package value is of a shape the consolidator loop survives:
Python None or a dict. -/
def isNoneOrDict (pkg : PyVal) : Bool :=
  match pkg with
  | .pyNone => true
  | .pyDict _ => true
  | _ => false

/-- The loop yields the sum of the list-shaped data lengths whenever every
package value is None or a dict. -/
theorem consolidateLoop_total (kvs : List (String × PyVal))
    (h : ∀ p ∈ kvs, isNoneOrDict p.2 = true) :
    ∃ entries, consolidateLoop kvs =
      .ok (entries, (kvs.map (fun p => listShapedCount p.2)).sum) := by
  induction kvs with
  | nil => exact ⟨[], rfl⟩
  | cons kv rest ih =>
    obtain ⟨name, pkg⟩ := kv
    have hrest := ih (fun p hp => h p (List.mem_cons_of_mem _ hp))
    obtain ⟨entries, hloop⟩ := hrest
    have hhead := h (name, pkg) (List.mem_cons_self _ _)
    cases pkg with
    | pyNone =>
      refine ⟨entries, ?_⟩
      simpa [consolidateLoop, listShapedCount] using hloop
    | pyDict d =>
      cases hdata : pyDictGet d "data" with
      | pyList updates =>
        refine ⟨(name, .pyDict
          [("updates", .pyList updates),
           ("source_url", pyDictGetD d "source_url" (.pyStr "")),
           ("update_count", .pyInt updates.length)]) :: entries, ?_⟩
        simp only [consolidateLoop, hdata, hloop, List.map_cons,
          List.sum_cons, listShapedCount]
        rw [Int.add_comm]
      | pyNone =>
        by_cases hud : pyDictHas d "update_date" = true
        · refine ⟨(name, .pyDict d) :: entries, ?_⟩
          simp [consolidateLoop, hdata, hud, hloop, listShapedCount]
        · refine ⟨entries, ?_⟩
          simp [consolidateLoop, hdata, hud, hloop, listShapedCount]
      | pyBool b =>
        by_cases hud : pyDictHas d "update_date" = true
        · refine ⟨(name, .pyDict d) :: entries, ?_⟩
          simp [consolidateLoop, hdata, hud, hloop, listShapedCount]
        · refine ⟨entries, ?_⟩
          simp [consolidateLoop, hdata, hud, hloop, listShapedCount]
      | pyInt n =>
        by_cases hud : pyDictHas d "update_date" = true
        · refine ⟨(name, .pyDict d) :: entries, ?_⟩
          simp [consolidateLoop, hdata, hud, hloop, listShapedCount]
        · refine ⟨entries, ?_⟩
          simp [consolidateLoop, hdata, hud, hloop, listShapedCount]
      | pyStr s =>
        by_cases hud : pyDictHas d "update_date" = true
        · refine ⟨(name, .pyDict d) :: entries, ?_⟩
          simp [consolidateLoop, hdata, hud, hloop, listShapedCount]
        · refine ⟨entries, ?_⟩
          simp [consolidateLoop, hdata, hud, hloop, listShapedCount]
      | pyDict d2 =>
        by_cases hud : pyDictHas d "update_date" = true
        · refine ⟨(name, .pyDict d) :: entries, ?_⟩
          simp [consolidateLoop, hdata, hud, hloop, listShapedCount]
        · refine ⟨entries, ?_⟩
          simp [consolidateLoop, hdata, hud, hloop, listShapedCount]
    | pyBool b => simp [isNoneOrDict] at hhead
    | pyInt n => simp [isNoneOrDict] at hhead
    | pyStr s => simp [isNoneOrDict] at hhead
    | pyList xs => simp [isNoneOrDict] at hhead

/-- C10 counterexample: a dictionary input holding a list-valued package —
the attribute access in the loop raises an AttributeError instead of
skipping the unrecognized structure, so the consolidator does not return a
report for this dictionary input. -/
theorem consolidate_attribute_error :
    consolidate_source_data (.pyDict [("edqm", .pyList [])]) =
      .error () := rfl

/-- C10 (amended): for every dictionary input whose package values are
each None or a dict, the consolidator returns a report dictionary (never
the Failure marker) whose total_updates entry is the sum of the data-list
lengths of the recognized list-shaped packages — None and unrecognized
dict-shaped packages contribute zero — so all-empty list-shaped packages
report zero; a package value of any other shape raises an AttributeError
instead. -/
theorem consolidate_report_total (kvs : List (String × PyVal))
    (h : ∀ p ∈ kvs, isNoneOrDict p.2 = true) :
    ∃ entries, consolidate_source_data (.pyDict kvs) =
      .ok (some (.pyDict (entries ++ [("total_updates",
        .pyInt ((kvs.map (fun p => listShapedCount p.2)).sum))]))) := by
  obtain ⟨entries, hloop⟩ := consolidateLoop_total kvs h
  exact ⟨entries, by simp [consolidate_source_data, hloop]⟩

/-- C10 witness: the amended theorem applied at a concrete results map —
one list-shaped package with two records, one empty list-shaped package,
one single-value package and one None package — total_updates is 2. -/
theorem consolidate_report_total_witness :
    ∃ entries, consolidate_source_data (.pyDict
      [("edqm", .pyDict [("data", .pyList [.pyStr "r1", .pyStr "r2"]),
         ("source_url", .pyStr "u1")]),
       ("cdsco", .pyDict [("data", .pyList []),
         ("source_url", .pyStr "u2")]),
       ("fda_dmf", .pyDict [("update_date", .pyStr "2025-10-01")]),
       ("ghost", .pyNone)]) =
      .ok (some (.pyDict (entries ++ [("total_updates", .pyInt 2)]))) := by
  have h := consolidate_report_total
    [("edqm", .pyDict [("data", .pyList [.pyStr "r1", .pyStr "r2"]),
       ("source_url", .pyStr "u1")]),
     ("cdsco", .pyDict [("data", .pyList []),
       ("source_url", .pyStr "u2")]),
     ("fda_dmf", .pyDict [("update_date", .pyStr "2025-10-01")]),
     ("ghost", .pyNone)]
    (by intro p hp; fin_cases hp <;> rfl)
  simpa [listShapedCount, pyDictGet] using h

end PharmaReg

namespace PharmaReg

/-! ## Claim C2 — orchestrator fail-fast -/

/-- C2: with a resolvable non-empty recipient list, if the source at
position k of the fixed order (EDQM, CDSCO, FDA warning letters, FDA DMF)
returns the Failure marker and the sources before it succeeded, then the
run invokes exactly the first k+1 sources — no source at a later position
is ever invoked — sends no notification, and returns false. -/
theorem manager_fail_fast (env : ManagerEnv) (rs : String) (k : Nat)
    (hrv : env.recipientsVar = some rs)
    (hrs : parseRecipients rs ≠ [])
    (hk4 : k < 4)
    (hfail : env.sourceResult (srcOrder k) = none)
    (hok : ∀ j, j < k → (env.sourceResult (srcOrder j)).isSome = true) :
    run_all_checks_and_notify env =
      .ok ⟨false, (List.range (k + 1)).map srcOrder, false⟩ ∧
    ∀ j, k < j → j < 4 → srcOrder j ∉ (List.range (k + 1)).map srcOrder := by
  have hrs0 : (rs == "") = false := by
    cases heq : rs == "" with
    | false => rfl
    | true =>
      have h : rs = "" := by simpa using heq
      subst h
      exact absurd rfl hrs
  have hrsl : (parseRecipients rs == []) = false := by
    cases heq : parseRecipients rs == [] with
    | false => rfl
    | true => exact absurd (by simpa using heq) hrs
  interval_cases k
  · simp only [srcOrder, ManagerEnv.sourceResult] at hfail
    constructor
    · have hlst : (List.range (0 + 1)).map srcOrder = [SourceName.edqm] := rfl
      rw [hlst]
      simp [run_all_checks_and_notify, hrv, hrs0, hrsl, hfail]
    · intro j h1 h2
      interval_cases j <;> decide
  · obtain ⟨e, he⟩ := Option.isSome_iff_exists.mp (hok 0 (by omega))
    simp only [srcOrder, ManagerEnv.sourceResult] at hfail he
    constructor
    · have hlst : (List.range (1 + 1)).map srcOrder =
        [SourceName.edqm, SourceName.cdsco] := rfl
      rw [hlst]
      simp [run_all_checks_and_notify, hrv, hrs0, hrsl, hfail, he]
    · intro j h1 h2
      interval_cases j <;> decide
  · obtain ⟨e, he⟩ := Option.isSome_iff_exists.mp (hok 0 (by omega))
    obtain ⟨c, hc⟩ := Option.isSome_iff_exists.mp (hok 1 (by omega))
    simp only [srcOrder, ManagerEnv.sourceResult] at hfail he hc
    constructor
    · have hlst : (List.range (2 + 1)).map srcOrder =
        [SourceName.edqm, SourceName.cdsco, SourceName.fda] := rfl
      rw [hlst]
      simp [run_all_checks_and_notify, hrv, hrs0, hrsl, hfail, he, hc]
    · intro j h1 h2
      interval_cases j <;> decide
  · obtain ⟨e, he⟩ := Option.isSome_iff_exists.mp (hok 0 (by omega))
    obtain ⟨c, hc⟩ := Option.isSome_iff_exists.mp (hok 1 (by omega))
    obtain ⟨f, hf⟩ := Option.isSome_iff_exists.mp (hok 2 (by omega))
    simp only [srcOrder, ManagerEnv.sourceResult] at hfail he hc hf
    constructor
    · have hlst : (List.range (3 + 1)).map srcOrder =
        [SourceName.edqm, SourceName.cdsco, SourceName.fda,
         SourceName.dmf] := rfl
      rw [hlst]
      simp [run_all_checks_and_notify, hrv, hrs0, hrsl, hfail, he, hc, hf]
    · intro j h1 h2
      omega

/-- C2 witness: the theorem applied at a concrete environment whose CDSCO
adapter (position 1) fails after a successful EDQM — the run stops with
EDQM and CDSCO invoked, FDA never reached, nothing sent, result false. -/
theorem manager_fail_fast_witness :
    run_all_checks_and_notify
      ⟨some "3", some "a@b.example",
       some (.pyDict [("data", .pyList []), ("source_url", .pyStr "u")]),
       none,
       some (.pyDict [("data", .pyList []), ("source_url", .pyStr "v")]),
       some (.pyDict [("update_date", .pyStr "2025-10-01")]),
       some ("subject", "body"), true⟩ =
      .ok ⟨false, [SourceName.edqm, SourceName.cdsco], false⟩ := by
  have h := (manager_fail_fast
    ⟨some "3", some "a@b.example",
     some (.pyDict [("data", .pyList []), ("source_url", .pyStr "u")]),
     none,
     some (.pyDict [("data", .pyList []), ("source_url", .pyStr "v")]),
     some (.pyDict [("update_date", .pyStr "2025-10-01")]),
     some ("subject", "body"), true⟩ "a@b.example" 1 rfl (by decide)
    (by omega) rfl (by decide)).1
  exact h.trans (by rfl)

end PharmaReg
